import Mathlib

/-!
Shallow embedding of `scripts/check_prepbufr.py`: the PREPBUFR validation
engine (per-record checks, aggregation, pressure-unit resolution) and the
CLI configuration boundary relevant to its exit behaviour.

Numeric field values are modelled as rationals plus a marker for
non-finite floats (`Val.nan` stands for NaN or an infinity).  A decoded
record exposes `read : String → Arr`, where a size-0 array stands for an
absent mnemonic, mirroring `_read1`'s treatment of empty reads.
-/

namespace PrepBufr

/-- A float value stored in a BUFR field: finite (as a rational) or non-finite. -/
inductive Val where
  | fin (q : ℚ)
  | nan
deriving DecidableEq

/-- `np.isfinite` on a stored value. -/
def Val.isFinite : Val → Bool
  | .fin _ => true
  | .nan => false

/-- Multiply by a (positive) scale factor; non-finite stays non-finite. -/
def Val.scale (s : ℚ) : Val → Val
  | .fin q => .fin (q * s)
  | .nan => .nan

/-- A numpy array as returned by `read_subset`: 1-D, or 2-D (rows of event columns). -/
inductive Arr where
  | a1 (xs : List Val)
  | a2 (rows : List (List Val))
deriving DecidableEq

def Arr.size : Arr → Nat
  | .a1 xs => xs.length
  | .a2 rows => (rows.map List.length).sum

/-- `a.flat`: row-major flattening. -/
def Arr.flat : Arr → List Val
  | .a1 xs => xs
  | .a2 rows => rows.flatten

/-- `arr[0][0]`: first row, first column of a 2-D array; indexing the scalar
element of a 1-D array raises, which the sampler's `except` swallows. -/
def Arr.at00 : Arr → Option Val
  | .a1 _ => none
  | .a2 rows => rows.head?.bind List.head?

/-- One decoded subset: field lookup by mnemonic. -/
structure Record where
  read : String → Arr

/-- One BUFR message: a category label and its subsets in decode order. -/
structure Msg where
  mtyp : String
  subs : List Record

def REQ_HDR : List String := ["XOB", "YOB", "DHR", "TYP", "ELV", "SAID", "T29"]

def REQ_SEQS : List String := ["TEVN", "WEVN", "PEVN", "ZEVN", "QEVN"]

def DEFAULT_TWIND_H : ℚ := 3

/-- The `RANGE` table of plausible closed intervals. -/
def RANGE (nm : String) : ℚ × ℚ :=
  if nm = "XOB" then (-180, 180)
  else if nm = "YOB" then (-90, 90)
  else if nm = "TOB" then (180, 340)
  else if nm = "POB" then (1, 1100)
  else if nm = "ZOB" then (-500, 40000)
  else if nm = "UOB" then (-120, 120)
  else if nm = "VOB" then (-120, 120)
  else if nm = "QOB" then (0, 1 / 20)
  else if nm = "PRSS" then (500, 1085)
  else if nm = "PWO" then (0, 100)
  else if nm = "DHR" then (-6, 6)
  else if nm = "HOVI" then (0, 100000)
  else if nm = "TDO" then (173, 333)
  else if nm = "MSST" then (271, 313)
  else (0, 0)

def PRESSURE_UNITS : List String := ["hpa", "cb", "pa", "auto"]

def DEFAULT_PRESSURE_UNIT : String := "hpa"

def PRESSURE_AUTODETECT_SAMPLES : Nat := 500

/-- The three autodetect plausibility windows, in hPa, cb, Pa order. -/
def PRESSURE_AUTODETECT_THRESH : (ℚ × ℚ) × (ℚ × ℚ) × (ℚ × ℚ) :=
  ((50, 1100), (5, 110), (5000, 110000))

def FAIL_HDR : String := "bad_header"

def FAIL_EVENTS : String := "no_final_event"

def FAIL_TIME : String := "time_out_of_window"

def FAIL_UNITS : String := "bad_units"

def FAIL_OBERRS : String := "missing_oberrs"

def FAIL_ADPSFC : String := "missing_adpsfc"

/-- `_read1`: the mnemonic's array when it has nonzero size, else `none`. -/
def read1 (r : Record) (mnem : String) : Option Arr :=
  let a := r.read mnem
  if 0 < a.size then some a else none

/-- `_read_scalar`: first element (row-major) of the mnemonic's array. -/
def read_scalar (r : Record) (mnem : String) : Option Val :=
  match read1 r mnem with
  | none => none
  | some a => a.flat.head?

/-- `_has_header_fast`: all required mnemonics have a nonzero-size array. -/
def has_header_fast (r : Record) (required : List String) : Bool :=
  required.all (fun m => 0 < (r.read m).size)

/-- numpy `shape[1]` of a 2-D array: the number of event columns. -/
def ncols (rows : List (List Val)) : Nat :=
  (rows.head?.getD []).length

/-- `_last_event`: the matrix and its event-column count for a 2-D array,
`(none, 0)` otherwise. -/
def last_event : Option Arr → Option (List (List Val)) × Nat
  | some (.a2 rows) => (some rows, ncols rows)
  | _ => (none, 0)

/-- `a[i, -1]`: last column of row `i`. -/
def row_last (rows : List (List Val)) (i : Nat) : Option Val :=
  (rows.get? i).bind List.getLast?

/-- `_in_range`: false on absent or non-finite, else the closed-interval test. -/
def in_range (val : Option Val) (lo hi : ℚ) : Bool :=
  match val with
  | none => false
  | some .nan => false
  | some (.fin q) => decide (lo ≤ q) && decide (q ≤ hi)

/-- `_pressure_scale`: factor converting file pressure values to hPa. -/
def pressure_scale (unit : String) : ℚ :=
  let u := unit.toLower
  if u = "hpa" then 1
  else if u = "cb" then 10
  else if u = "pa" then 1 / 100
  else 1

/-- One autodetect candidate from a mnemonic: `float(arr[0][0])` when the array
is nonempty, kept only when finite and strictly positive. -/
def sample_of (r : Record) (nm : String) : Option ℚ :=
  let a := r.read nm
  if 0 < a.size then
    match a.at00 with
    | some (.fin q) => if 0 < q then some q else none
    | _ => none
  else none

/-- Samples contributed by one subset (`POB` then `PRSS`), respecting the cap:
once the budget is exhausted after `POB`, `PRSS` is not read. -/
def sub_samples (r : Record) (rem : Nat) : List ℚ :=
  let s1 := match sample_of r "POB" with | some v => [v] | none => []
  if rem - s1.length = 0 then s1
  else s1 ++ (match sample_of r "PRSS" with | some v => [v] | none => [])

/-- The subset loop of `_autodetect_pressure_unit`, with the remaining budget. -/
def collect_subs : List Record → Nat → List ℚ → List ℚ × Nat
  | [], rem, acc => (acc, rem)
  | r :: rest, rem, acc =>
    if rem = 0 then (acc, 0)
    else
      let s := sub_samples r rem
      collect_subs rest (rem - s.length) (acc ++ s)

/-- The message loop of `_autodetect_pressure_unit`. -/
def collect_file : List Msg → Nat → List ℚ → List ℚ
  | [], _, acc => acc
  | m :: rest, rem, acc =>
    if rem = 0 then acc
    else
      let p := collect_subs m.subs rem acc
      collect_file rest p.2 p.1

/-- Stable insertion into an ascending sorted list. -/
def insert_sorted (x : ℚ) : List ℚ → List ℚ
  | [] => [x]
  | y :: ys => if x ≤ y then x :: y :: ys else y :: insert_sorted x ys

def sortQ (xs : List ℚ) : List ℚ :=
  xs.foldr insert_sorted []

/-- `statistics.median`: middle element for odd length, mean of the two middle
elements for even length (callers guard against the empty list). -/
def median (xs : List ℚ) : ℚ :=
  let s := sortQ xs
  let n := s.length
  if n % 2 = 1 then s.getD (n / 2) 0
  else (s.getD (n / 2 - 1) 0 + s.getD (n / 2) 0) / 2

/-- `_autodetect_pressure_unit`: median of up to `maxS` finite positive
`POB`/`PRSS` samples, matched against the three unit windows in order. -/
def autodetect_pressure_unit (file : List Msg) (maxS : Nat) : String :=
  let vals := collect_file file maxS []
  if vals = [] then "hpa"
  else
    let med := median vals
    let hw := PRESSURE_AUTODETECT_THRESH.1
    let cw := PRESSURE_AUTODETECT_THRESH.2.1
    let pw := PRESSURE_AUTODETECT_THRESH.2.2
    if hw.1 ≤ med ∧ med ≤ hw.2 then "hpa"
    else if cw.1 ≤ med ∧ med ≤ cw.2 then "cb"
    else if pw.1 ≤ med ∧ med ≤ pw.2 then "pa"
    else "hpa"

/-- The run configuration consumed by `check_file`. -/
structure Config where
  twind_h : ℚ
  check_oberrs : Bool
  kind : Option String
  pressure_unit : String

/-- `check_range` inside `check_file`: read the scalar, convert pressure-class
values to hPa, then the range test. -/
def check_range (r : Record) (pscale : ℚ) (nm : String) : Bool :=
  let a := read_scalar r nm
  let lo := (RANGE nm).1
  let hi := (RANGE nm).2
  let a2 := match a with
    | some v => if nm = "POB" ∨ nm = "PRSS" then some (v.scale pscale) else some v
    | none => none
  in_range a2 lo hi

def is_finite_qm : Option Val → Bool
  | some v => v.isFinite
  | none => false

/-- Tier-1 temperature family: `TEVN` with at least one event column and a
finite `TQM` (`a[1, -1]`). -/
def tevn_ok (r : Record) : Bool :=
  match last_event (read1 r "TEVN") with
  | (some rows, nev) =>
    decide (1 ≤ nev) && (decide (2 ≤ rows.length) && is_finite_qm (row_last rows 1))
  | (none, _) => false

/-- Tier-1 wind family: `WEVN` with at least one event column and a finite
`WQM` (`a[2, -1]`). -/
def wevn_ok (r : Record) : Bool :=
  match last_event (read1 r "WEVN") with
  | (some rows, nev) =>
    decide (1 ≤ nev) && (decide (3 ≤ rows.length) && is_finite_qm (row_last rows 2))
  | (none, _) => false

/-- Tier-2: `PEVN`/`ZEVN`/`QEVN` with at least one event column. -/
def tier2_ok (r : Record) : Bool :=
  ["PEVN", "ZEVN", "QEVN"].any (fun s => decide (1 ≤ (last_event (read1 r s)).2))

/-- The terminal-event search: tier 1, then tier 2 only when tier 1 failed. -/
def seq_ok (r : Record) : Bool :=
  if tevn_ok r || wevn_ok r then true else tier2_ok r

/-- The chained comparison `-t <= dhr <= t` on a float (False on NaN). -/
def dhr_in_window (dhr : Val) (t : ℚ) : Bool :=
  match dhr with
  | .nan => false
  | .fin q => decide (-t ≤ q) && decide (q ≤ t)

def UNIT_VARS : List String := ["XOB", "YOB", "TOB", "POB", "ZOB", "UOB", "VOB", "QOB"]

/-- One iteration of the unit-plausibility loop: a present variable that fails
`check_range` sets the flag and appends its name. -/
def unit_step (r : Record) (pscale : ℚ) (st : Bool × List String) (nm : String) :
    Bool × List String :=
  match read1 r nm with
  | some _ => if check_range r pscale nm then st else (true, st.2 ++ [nm])
  | none => st

/-- The unit-plausibility loop over the eight base variables. -/
def unit_loop (r : Record) (pscale : ℚ) : Bool × List String :=
  UNIT_VARS.foldl (unit_step r pscale) (false, [])

def OBERR_PAIRS : List (List String × String) :=
  [(["TOB"], "TOE"), (["UOB", "VOB"], "WOE"), (["POB"], "POE"),
   (["ZOB"], "ZOE"), (["QOB"], "QOE")]

/-- Observation-error presence: some observed quantity present with its paired
error field absent. -/
def miss_oberrs_check (r : Record) : Bool :=
  OBERR_PAIRS.any (fun p => p.1.any (fun o => (read1 r o).isSome) && !(read1 r p.2).isSome)

/-- The ADPSFC auxiliary-field check, evaluated only for significant records
(header ok and terminal event found). -/
def miss_adpsfc_check (r : Record) (pscale : ℚ) (subset_bad_hdr subset_no_events : Bool) :
    Bool :=
  if subset_bad_hdr || subset_no_events then false
  else if (read1 r "PRSS").isSome && ((read1 r "PWO").isSome && (read1 r "CAT").isSome) then
    let prss_hpa := (read_scalar r "PRSS").map (Val.scale pscale)
    let pwo0 := read_scalar r "PWO"
    !(in_range prss_hpa (RANGE "PRSS").1 (RANGE "PRSS").2) ||
      !(in_range pwo0 (RANGE "PWO").1 (RANGE "PWO").2)
  else true

/-- Per-record check outcomes, as the subset loop computes them. -/
structure Flags where
  bad_hdr : Bool
  time_oow : Bool
  no_events : Bool
  bad_units : Bool
  unit_fails : List String
  miss_oberrs : Bool
  miss_adpsfc : Bool

/-- All per-record checks in source order. -/
def check_flags (cfg : Config) (pscale : ℚ) (r : Record) : Flags :=
  let subset_bad_hdr := !has_header_fast r REQ_HDR
  let subset_time_oow :=
    match read_scalar r "DHR" with
    | none => true
    | some v => !dhr_in_window v cfg.twind_h
  let subset_no_events := !seq_ok r
  let u := unit_loop r pscale
  let subset_miss_oberrs := if cfg.check_oberrs then miss_oberrs_check r else false
  let subset_miss_adpsfc :=
    if cfg.kind = some "adpsfc" then
      miss_adpsfc_check r pscale subset_bad_hdr subset_no_events
    else false
  { bad_hdr := subset_bad_hdr
    time_oow := subset_time_oow
    no_events := subset_no_events
    bad_units := u.1
    unit_fails := u.2
    miss_oberrs := subset_miss_oberrs
    miss_adpsfc := subset_miss_adpsfc }

/-- The approval decision: `not any(...)` over the six subset flags. -/
def approved (f : Flags) : Bool :=
  !(f.bad_hdr || f.no_events || f.time_oow || f.bad_units || f.miss_oberrs || f.miss_adpsfc)

/-- One detailed failure entry. -/
structure FailRecord where
  msg_type : String
  subset_idx : Nat
  fail_type : String
  var : Option String
deriving DecidableEq

/-- Aggregation state of the main loop. -/
structure Agg where
  nmsg : Nat
  nsub : Nat
  bad_hdr : Nat
  no_events : Nat
  time_oow : Nat
  bad_units : Nat
  miss_oberrs : Nat
  miss_adpsfc : Nat
  typeKeys : List String
  types : String → Nat
  per_type_total : String → Nat
  per_type_approved : String → Nat
  per_type_bad_hdr : String → Nat
  per_type_no_events : String → Nat
  per_type_time_oow : String → Nat
  per_type_bad_units : String → Nat
  per_type_miss_oberrs : String → Nat
  per_type_miss_adpsfc : String → Nat
  fail_records : List FailRecord

/-- `inc(d, k)`: point increment of a per-category counter. -/
def inc (d : String → Nat) (k : String) : String → Nat :=
  fun x => if x = k then d x + 1 else d x

def initAgg : Agg where
  nmsg := 0
  nsub := 0
  bad_hdr := 0
  no_events := 0
  time_oow := 0
  bad_units := 0
  miss_oberrs := 0
  miss_adpsfc := 0
  typeKeys := []
  types := fun _ => 0
  per_type_total := fun _ => 0
  per_type_approved := fun _ => 0
  per_type_bad_hdr := fun _ => 0
  per_type_no_events := fun _ => 0
  per_type_time_oow := fun _ => 0
  per_type_bad_units := fun _ => 0
  per_type_miss_oberrs := fun _ => 0
  per_type_miss_adpsfc := fun _ => 0
  fail_records := []

/-- The body of the subset loop: run the checks and update every counter,
failure-record list, and approval count. -/
def step_subset (cfg : Config) (pscale : ℚ) (mtyp : String) (agg : Agg) (r : Record) : Agg :=
  let nsub := agg.nsub + 1
  let f := check_flags cfg pscale r
  let recs_hdr : List FailRecord := if f.bad_hdr then [⟨mtyp, nsub, FAIL_HDR, none⟩] else []
  let recs_time : List FailRecord := if f.time_oow then [⟨mtyp, nsub, FAIL_TIME, none⟩] else []
  let recs_ev : List FailRecord := if f.no_events then [⟨mtyp, nsub, FAIL_EVENTS, none⟩] else []
  let recs_units : List FailRecord := f.unit_fails.map (fun nm => ⟨mtyp, nsub, FAIL_UNITS, some nm⟩)
  let recs_ob : List FailRecord := if f.miss_oberrs then [⟨mtyp, nsub, FAIL_OBERRS, none⟩] else []
  let recs_ad : List FailRecord := if f.miss_adpsfc then [⟨mtyp, nsub, FAIL_ADPSFC, none⟩] else []
  { agg with
    nsub := nsub
    types := inc agg.types mtyp
    per_type_total := inc agg.per_type_total mtyp
    bad_hdr := agg.bad_hdr + (if f.bad_hdr then 1 else 0)
    per_type_bad_hdr := if f.bad_hdr then inc agg.per_type_bad_hdr mtyp else agg.per_type_bad_hdr
    time_oow := agg.time_oow + (if f.time_oow then 1 else 0)
    per_type_time_oow :=
      if f.time_oow then inc agg.per_type_time_oow mtyp else agg.per_type_time_oow
    no_events := agg.no_events + (if f.no_events then 1 else 0)
    per_type_no_events :=
      if f.no_events then inc agg.per_type_no_events mtyp else agg.per_type_no_events
    bad_units := agg.bad_units + (if f.bad_units then 1 else 0)
    per_type_bad_units :=
      if f.bad_units then inc agg.per_type_bad_units mtyp else agg.per_type_bad_units
    miss_oberrs := agg.miss_oberrs + (if f.miss_oberrs then 1 else 0)
    per_type_miss_oberrs :=
      if f.miss_oberrs then inc agg.per_type_miss_oberrs mtyp else agg.per_type_miss_oberrs
    miss_adpsfc := agg.miss_adpsfc + (if f.miss_adpsfc then 1 else 0)
    per_type_miss_adpsfc :=
      if f.miss_adpsfc then inc agg.per_type_miss_adpsfc mtyp else agg.per_type_miss_adpsfc
    per_type_approved :=
      if approved f then inc agg.per_type_approved mtyp else agg.per_type_approved
    fail_records :=
      agg.fail_records ++ recs_hdr ++ recs_time ++ recs_ev ++ recs_units ++ recs_ob ++ recs_ad }

/-- The body of the message loop: register the category key, then fold the
subset loop over the message's records. -/
def step_msg (cfg : Config) (pscale : ℚ) (agg : Agg) (m : Msg) : Agg :=
  let agg1 := { agg with
    nmsg := agg.nmsg + 1
    typeKeys := if m.mtyp ∈ agg.typeKeys then agg.typeKeys else agg.typeKeys ++ [m.mtyp] }
  m.subs.foldl (step_subset cfg pscale m.mtyp) agg1

/-- The overall status rule at the end of `check_file`. -/
def overall_status (cfg : Config) (a : Agg) : String :=
  if a.bad_hdr = 0 ∧ a.no_events = 0 ∧ a.time_oow = 0 ∧ a.bad_units = 0 ∧
      (if cfg.check_oberrs then a.miss_oberrs else 0) = 0 ∧
      (if cfg.kind = some "adpsfc" then a.miss_adpsfc else 0) = 0
  then "PASSOU" else "ATENÇÃO"

/-- Unit resolution at the top of `check_file`: out-of-enumeration strings fall
back to the default, and `auto` triggers the sampling pass. -/
def resolve_unit (pressure_unit : String) (file : List Msg) : String :=
  let pu := if pressure_unit ∈ PRESSURE_UNITS then pressure_unit else DEFAULT_PRESSURE_UNIT
  if pu = "auto" then autodetect_pressure_unit file PRESSURE_AUTODETECT_SAMPLES else pu

/-- The final snapshot returned by `check_file`. -/
structure Summary where
  agg : Agg
  status : String
  pressure_unit_used : String

/-- `check_file`: resolve the unit, run the two-level loop, derive the status. -/
def check_file (cfg : Config) (file : List Msg) : Summary :=
  let unit := resolve_unit cfg.pressure_unit file
  let ps := pressure_scale unit
  let a := file.foldl (step_msg cfg ps) initAgg
  { agg := a, status := overall_status cfg a, pressure_unit_used := unit }

/-- `main`'s return value: 0 on PASSOU, 1 otherwise. -/
def exit_code (s : Summary) : Nat :=
  if s.status = "PASSOU" then 0 else 1

def KIND_CHOICES : List String := ["adpsfc", "adpupa"]

/-- CLI option values relevant to configuration validation. -/
structure CliArgs where
  pressure_unit : Option String
  kind : Option String
  twind : Option ℚ
  check_oberrs : Bool

/-- argparse `choices` validation for the options that gate the run: an
out-of-enumeration `--pressure-unit` or `--kind` aborts argument parsing. -/
def parse_args (a : CliArgs) : Except String Config :=
  let pu := a.pressure_unit.getD DEFAULT_PRESSURE_UNIT
  if pu ∈ PRESSURE_UNITS then
    match a.kind with
    | some k =>
      if k ∈ KIND_CHOICES then
        Except.ok { twind_h := a.twind.getD DEFAULT_TWIND_H, check_oberrs := a.check_oberrs,
                    kind := some k, pressure_unit := pu }
      else Except.error "argument --kind: invalid choice"
    | none =>
      Except.ok { twind_h := a.twind.getD DEFAULT_TWIND_H, check_oberrs := a.check_oberrs,
                  kind := none, pressure_unit := pu }
  else Except.error "argument --pressure-unit: invalid choice"

/-- `main`: parse, then run the checks; an argparse failure aborts before any
pass over the file, so no Summary is produced. -/
def main_run (a : CliArgs) (file : List Msg) : Except String (Summary × Nat) :=
  match parse_args a with
  | Except.error e => Except.error e
  | Except.ok cfg =>
    let s := check_file cfg file
    Except.ok (s, exit_code s)

/-- The status rule, restated over an arbitrary final aggregation state. -/
theorem overall_status_iff (cfg : Config) (a : Agg) :
    (overall_status cfg a = "PASSOU" ↔
      (a.bad_hdr = 0 ∧ a.no_events = 0 ∧ a.time_oow = 0 ∧ a.bad_units = 0 ∧
        (a.miss_oberrs = 0 ∨ cfg.check_oberrs = false) ∧
        (a.miss_adpsfc = 0 ∨ ¬cfg.kind = some "adpsfc"))) := by
  have hcond : ((if cfg.check_oberrs then a.miss_oberrs else 0) = 0 ↔
      (a.miss_oberrs = 0 ∨ cfg.check_oberrs = false)) := by
    cases hob : cfg.check_oberrs <;> simp
  have hcond2 : ((if cfg.kind = some "adpsfc" then a.miss_adpsfc else 0) = 0 ↔
      (a.miss_adpsfc = 0 ∨ ¬cfg.kind = some "adpsfc")) := by
    by_cases hk : cfg.kind = some "adpsfc" <;> simp [hk]
  by_cases h : (a.bad_hdr = 0 ∧ a.no_events = 0 ∧ a.time_oow = 0 ∧ a.bad_units = 0 ∧
      (if cfg.check_oberrs then a.miss_oberrs else 0) = 0 ∧
      (if cfg.kind = some "adpsfc" then a.miss_adpsfc else 0) = 0)
  · unfold overall_status
    rw [if_pos h]
    constructor
    · intro _
      exact ⟨h.1, h.2.1, h.2.2.1, h.2.2.2.1, hcond.mp h.2.2.2.2.1, hcond2.mp h.2.2.2.2.2⟩
    · intro _
      rfl
  · unfold overall_status
    rw [if_neg h]
    constructor
    · intro hs
      exact absurd hs (by decide)
    · intro hc
      exact absurd
        ⟨hc.1, hc.2.1, hc.2.2.1, hc.2.2.2.1, hcond.mpr hc.2.2.2.2.1, hcond2.mpr hc.2.2.2.2.2⟩ h

/-- C1: for every run, the overall status is PASS iff the bad-header,
no-terminal-event, time-out-of-window and implausible-units counters are all
zero, the observation-error counter is zero or that check was disabled, and
the platform-field counter is zero or the platform check is disabled or not
applicable to the configured kind; and the exit code is 0 iff the status is
PASS, 1 otherwise. -/
theorem c1_status_and_exit (cfg : Config) (file : List Msg) :
    ((check_file cfg file).status = "PASSOU" ↔
      ((check_file cfg file).agg.bad_hdr = 0 ∧ (check_file cfg file).agg.no_events = 0 ∧
        (check_file cfg file).agg.time_oow = 0 ∧ (check_file cfg file).agg.bad_units = 0 ∧
        ((check_file cfg file).agg.miss_oberrs = 0 ∨ cfg.check_oberrs = false) ∧
        ((check_file cfg file).agg.miss_adpsfc = 0 ∨ ¬cfg.kind = some "adpsfc"))) ∧
    (exit_code (check_file cfg file) = 0 ↔ (check_file cfg file).status = "PASSOU") ∧
    (exit_code (check_file cfg file) = 1 ↔ ¬(check_file cfg file).status = "PASSOU") := by
  refine ⟨overall_status_iff cfg (check_file cfg file).agg, ?_, ?_⟩
  · show (if (check_file cfg file).status = "PASSOU" then 0 else 1) = 0 ↔ _
    split <;> rename_i h <;> simp [h]
  · show (if (check_file cfg file).status = "PASSOU" then 0 else 1) = 1 ↔ _
    split <;> rename_i h <;> simp [h]

/-- C2: a record is approved iff none of the checks applicable to it failed:
checks 1 to 4 always apply, the observation-error check applies only when its
flag is enabled, the platform check only when the configured kind enables it;
the approval boolean is the conjunction of the applicable check outcomes. -/
theorem c2_approved_iff (cfg : Config) (pscale : ℚ) (r : Record) :
    approved (check_flags cfg pscale r) = true ↔
      ((check_flags cfg pscale r).bad_hdr = false ∧
        (check_flags cfg pscale r).time_oow = false ∧
        (check_flags cfg pscale r).no_events = false ∧
        (check_flags cfg pscale r).bad_units = false ∧
        (cfg.check_oberrs = true → miss_oberrs_check r = false) ∧
        (cfg.kind = some "adpsfc" →
          miss_adpsfc_check r pscale (check_flags cfg pscale r).bad_hdr
            (check_flags cfg pscale r).no_events = false)) := by
  cases hob : cfg.check_oberrs <;> by_cases hk : cfg.kind = some "adpsfc" <;>
    simp [approved, check_flags, hob, hk] <;> tauto

/-- The tier-1 temperature family matches: `TEVN` present as a 2-D matrix with
at least one event column, at least two rows, and a finite value in the last
column of row 1. -/
def tier1TempMatch (r : Record) : Prop :=
  ∃ rows, read1 r "TEVN" = some (Arr.a2 rows) ∧ 1 ≤ ncols rows ∧ 2 ≤ rows.length ∧
    ∃ v, row_last rows 1 = some v ∧ v.isFinite = true

/-- The tier-1 wind family matches: `WEVN` with at least one event column, at
least three rows, and a finite value in the last column of row 2. -/
def tier1WindMatch (r : Record) : Prop :=
  ∃ rows, read1 r "WEVN" = some (Arr.a2 rows) ∧ 1 ≤ ncols rows ∧ 3 ≤ rows.length ∧
    ∃ v, row_last rows 2 = some v ∧ v.isFinite = true

/-- A tier-2 family matches: one of `PEVN`/`ZEVN`/`QEVN` is present as a 2-D
matrix with at least one event column (no quality-mark requirement). -/
def tier2Match (r : Record) : Prop :=
  ∃ s, s ∈ (["PEVN", "ZEVN", "QEVN"] : List String) ∧
    ∃ rows, read1 r s = some (Arr.a2 rows) ∧ 1 ≤ ncols rows

theorem tevn_ok_iff (r : Record) : tevn_ok r = true ↔ tier1TempMatch r := by
  unfold tevn_ok tier1TempMatch
  cases h : read1 r "TEVN" with
  | none => simp [last_event, h]
  | some a =>
    cases a with
    | a1 xs => simp [last_event, h]
    | a2 rows =>
      cases hv : row_last rows 1 with
      | none => simp [last_event, is_finite_qm, hv]
      | some v => simp [last_event, is_finite_qm, hv, and_assoc]

theorem wevn_ok_iff (r : Record) : wevn_ok r = true ↔ tier1WindMatch r := by
  unfold wevn_ok tier1WindMatch
  cases h : read1 r "WEVN" with
  | none => simp [last_event, h]
  | some a =>
    cases a with
    | a1 xs => simp [last_event, h]
    | a2 rows =>
      cases hv : row_last rows 2 with
      | none => simp [last_event, is_finite_qm, hv]
      | some v => simp [last_event, is_finite_qm, hv, and_assoc]

theorem tier2_ok_iff (r : Record) : tier2_ok r = true ↔ tier2Match r := by
  unfold tier2_ok tier2Match
  simp only [List.any_eq_true, decide_eq_true_eq]
  constructor
  · rintro ⟨s, hs, hnev⟩
    refine ⟨s, hs, ?_⟩
    cases h : read1 r s with
    | none => rw [h] at hnev; simp [last_event] at hnev
    | some a =>
      cases a with
      | a1 xs => rw [h] at hnev; simp [last_event] at hnev
      | a2 rows =>
        rw [h] at hnev
        exact ⟨rows, rfl, by simpa [last_event] using hnev⟩
  · rintro ⟨s, hs, rows, hrows, hc⟩
    exact ⟨s, hs, by rw [hrows]; simpa [last_event] using hc⟩

/-- C4: the terminal-event check succeeds iff the temperature family matches
(at least one event column and a finite quality mark in the last column of row
1), or the wind family matches (row 2), or — only when neither tier-1 family
matched — one of the pressure/height/humidity sequences has at least one event
column; mere presence is insufficient in tier 1, and the check fails iff no
family matches in either tier. -/
theorem c4_terminal_event (r : Record) :
    seq_ok r = true ↔
      (tier1TempMatch r ∨ tier1WindMatch r ∨
        ((¬tier1TempMatch r ∧ ¬tier1WindMatch r) ∧ tier2Match r)) := by
  have ht := tevn_ok_iff r
  have hw := wevn_ok_iff r
  have h2 := tier2_ok_iff r
  unfold seq_ok
  by_cases hT : tevn_ok r = true
  · simp [hT, ht.mp hT]
  · by_cases hW : wevn_ok r = true
    · simp only [Bool.not_eq_true] at hT
      simp [hT, hW, hw.mp hW]
    · have hTm : ¬tier1TempMatch r := fun hm => hT (ht.mpr hm)
      have hWm : ¬tier1WindMatch r := fun hm => hW (hw.mpr hm)
      simp only [Bool.not_eq_true] at hT hW
      simp [hT, hW, h2, hTm, hWm]

/-- One unit-loop iteration, in closed form. -/
theorem unit_step_eq (r : Record) (pscale : ℚ) (st : Bool × List String) (nm : String) :
    unit_step r pscale st nm =
      (st.1 || ((read1 r nm).isSome && !check_range r pscale nm),
        st.2 ++ (if (read1 r nm).isSome && !check_range r pscale nm then [nm] else [])) := by
  unfold unit_step
  cases h : read1 r nm with
  | none => simp
  | some a => by_cases hc : check_range r pscale nm <;> simp [hc]

/-- The unit loop, in closed form: the flag is `any`, the list is `filter`. -/
theorem unit_foldl_eq (r : Record) (pscale : ℚ) :
    ∀ (l : List String) (st : Bool × List String),
      l.foldl (unit_step r pscale) st =
        (st.1 || l.any (fun nm => (read1 r nm).isSome && !check_range r pscale nm),
          st.2 ++ l.filter (fun nm => (read1 r nm).isSome && !check_range r pscale nm))
  | [], st => by simp
  | nm :: l, st => by
    rw [List.foldl_cons, unit_step_eq, unit_foldl_eq r pscale l]
    by_cases h : ((read1 r nm).isSome && !check_range r pscale nm) = true <;>
      simp [h, List.filter_cons, Bool.or_assoc]

theorem any_eq_not_isEmpty_filter {α : Type} (l : List α) (p : α → Bool) :
    l.any p = !(l.filter p).isEmpty := by
  induction l with
  | nil => rfl
  | cons x l ih => by_cases h : p x = true <;> simp [List.filter_cons, h, ih]

theorem filter_ifsingleton_ne (b : Bool) (x : FailRecord) (p : FailRecord → Bool)
    (hx : p x = false) :
    ((if b = true then [x] else []).filter p) = [] := by
  cases b <;> simp [List.filter_cons, hx]

theorem filter_units_map (l : List String) (mt : String) (n : Nat) :
    ((l.map (fun nm => (⟨mt, n, FAIL_UNITS, some nm⟩ : FailRecord))).filter
        (fun fr => fr.fail_type == FAIL_UNITS)) =
      l.map (fun nm => (⟨mt, n, FAIL_UNITS, some nm⟩ : FailRecord)) := by
  induction l with
  | nil => rfl
  | cons x l ih => simp [List.filter_cons, ih]

/-- C5: the unit-plausibility check records one variable-tagged failure entry
for every one of the eight base variables that is present and out of range (in
source order, all offenders, not only the first), while the record-level
implausible-units counters (global and per-category) are incremented exactly
once iff at least one variable failed, and at most once per record. -/
theorem c5_units_per_variable (cfg : Config) (pscale : ℚ) (mtyp : String) (agg : Agg)
    (r : Record) :
    ((check_flags cfg pscale r).unit_fails =
        UNIT_VARS.filter (fun nm => (read1 r nm).isSome && !check_range r pscale nm)) ∧
    ((check_flags cfg pscale r).bad_units =
        !(UNIT_VARS.filter (fun nm => (read1 r nm).isSome && !check_range r pscale nm)).isEmpty) ∧
    ((step_subset cfg pscale mtyp agg r).fail_records.filter
        (fun fr => fr.fail_type == FAIL_UNITS) =
      agg.fail_records.filter (fun fr => fr.fail_type == FAIL_UNITS) ++
        (UNIT_VARS.filter (fun nm => (read1 r nm).isSome && !check_range r pscale nm)).map
          (fun nm => (⟨mtyp, agg.nsub + 1, FAIL_UNITS, some nm⟩ : FailRecord))) ∧
    ((step_subset cfg pscale mtyp agg r).bad_units =
        agg.bad_units +
          (if (UNIT_VARS.filter (fun nm => (read1 r nm).isSome && !check_range r pscale nm)) = []
            then 0 else 1)) ∧
    (∀ t, (step_subset cfg pscale mtyp agg r).per_type_bad_units t =
        agg.per_type_bad_units t +
          (if (UNIT_VARS.filter (fun nm => (read1 r nm).isSome && !check_range r pscale nm)) = []
              ∨ ¬t = mtyp then 0 else 1)) := by
  have hloop := unit_foldl_eq r pscale UNIT_VARS (false, [])
  have hfails : (check_flags cfg pscale r).unit_fails =
      UNIT_VARS.filter (fun nm => (read1 r nm).isSome && !check_range r pscale nm) := by
    show (unit_loop r pscale).2 = _
    rw [unit_loop, hloop]
    simp
  have hflag : (check_flags cfg pscale r).bad_units =
      !(UNIT_VARS.filter (fun nm => (read1 r nm).isSome && !check_range r pscale nm)).isEmpty := by
    show (unit_loop r pscale).1 = _
    rw [unit_loop, hloop]
    simp [any_eq_not_isEmpty_filter]
  refine ⟨hfails, hflag, ?_, ?_, ?_⟩
  · show (agg.fail_records ++ _ ++ _ ++ _ ++ _ ++ _ ++ _).filter _ = _
    rw [List.filter_append, List.filter_append, List.filter_append, List.filter_append,
      List.filter_append, List.filter_append]
    rw [filter_ifsingleton_ne _ _ _ (show (FAIL_HDR == FAIL_UNITS) = false by decide),
      filter_ifsingleton_ne _ _ _ (show (FAIL_TIME == FAIL_UNITS) = false by decide),
      filter_ifsingleton_ne _ _ _ (show (FAIL_EVENTS == FAIL_UNITS) = false by decide),
      filter_ifsingleton_ne _ _ _ (show (FAIL_OBERRS == FAIL_UNITS) = false by decide),
      filter_ifsingleton_ne _ _ _ (show (FAIL_ADPSFC == FAIL_UNITS) = false by decide)]
    rw [hfails, filter_units_map]
    simp
  · show agg.bad_units + (if (check_flags cfg pscale r).bad_units then 1 else 0) = _
    rw [hflag]
    by_cases h : (UNIT_VARS.filter
        (fun nm => (read1 r nm).isSome && !check_range r pscale nm)) = [] <;>
      simp [h, List.isEmpty_iff]
  · intro t
    show (if (check_flags cfg pscale r).bad_units then inc agg.per_type_bad_units mtyp
        else agg.per_type_bad_units) t = _
    rw [hflag]
    by_cases h : (UNIT_VARS.filter
        (fun nm => (read1 r nm).isSome && !check_range r pscale nm)) = []
    · simp [h]
    · by_cases ht : t = mtyp <;> simp [h, ht, inc, List.isEmpty_iff]

/-- C6: when the platform check is enabled, a record that failed the header or
terminal-event check is skipped by check 6 entirely: its platform flag is
false, the missing-platform-fields counters are unchanged, and no
missing-platform-fields failure entry is appended. -/
theorem c6_adpsfc_skip (cfg : Config) (pscale : ℚ) (mtyp : String) (agg : Agg) (r : Record)
    (hkind : cfg.kind = some "adpsfc")
    (hfail : (check_flags cfg pscale r).bad_hdr = true ∨
      (check_flags cfg pscale r).no_events = true) :
    ((check_flags cfg pscale r).miss_adpsfc = false) ∧
    ((step_subset cfg pscale mtyp agg r).miss_adpsfc = agg.miss_adpsfc) ∧
    (∀ t, (step_subset cfg pscale mtyp agg r).per_type_miss_adpsfc t =
        agg.per_type_miss_adpsfc t) ∧
    ((step_subset cfg pscale mtyp agg r).fail_records.filter
        (fun fr => fr.fail_type == FAIL_ADPSFC) =
      agg.fail_records.filter (fun fr => fr.fail_type == FAIL_ADPSFC)) := by
  have hflag : (check_flags cfg pscale r).miss_adpsfc = false := by
    show (if cfg.kind = some "adpsfc" then
        miss_adpsfc_check r pscale (check_flags cfg pscale r).bad_hdr
          (check_flags cfg pscale r).no_events
      else false) = false
    rw [if_pos hkind]
    unfold miss_adpsfc_check
    rcases hfail with h | h <;> rw [h] <;> simp
  refine ⟨hflag, ?_, ?_, ?_⟩
  · show agg.miss_adpsfc + (if (check_flags cfg pscale r).miss_adpsfc then 1 else 0) = _
    rw [hflag]
    simp
  · intro t
    show (if (check_flags cfg pscale r).miss_adpsfc then inc agg.per_type_miss_adpsfc mtyp
        else agg.per_type_miss_adpsfc) t = _
    rw [hflag]
    simp
  · show (agg.fail_records ++ _ ++ _ ++ _ ++ _ ++ _ ++ _).filter _ = _
    rw [List.filter_append, List.filter_append, List.filter_append, List.filter_append,
      List.filter_append, List.filter_append]
    rw [filter_ifsingleton_ne _ _ _ (show (FAIL_HDR == FAIL_ADPSFC) = false by decide),
      filter_ifsingleton_ne _ _ _ (show (FAIL_TIME == FAIL_ADPSFC) = false by decide),
      filter_ifsingleton_ne _ _ _ (show (FAIL_EVENTS == FAIL_ADPSFC) = false by decide),
      filter_ifsingleton_ne _ _ _ (show (FAIL_OBERRS == FAIL_ADPSFC) = false by decide)]
    rw [hflag]
    have hmap : (((check_flags cfg pscale r).unit_fails.map
        (fun nm => (⟨mtyp, agg.nsub + 1, FAIL_UNITS, some nm⟩ : FailRecord))).filter
          (fun fr => fr.fail_type == FAIL_ADPSFC)) = [] := by
      induction (check_flags cfg pscale r).unit_fails with
      | nil => rfl
      | cons x l ih => simp [List.filter_cons, ih, FAIL_UNITS, FAIL_ADPSFC]
    rw [hmap]
    simp

def cfgW6 : Config :=
  { twind_h := 3, check_oberrs := false, kind := some "adpsfc", pressure_unit := "hpa" }

def emptyRecord : Record := ⟨fun _ => Arr.a1 []⟩

theorem c6_adpsfc_skip_witness :
    cfgW6.kind = some "adpsfc" ∧
    ((check_flags cfgW6 1 emptyRecord).bad_hdr = true ∨
      (check_flags cfgW6 1 emptyRecord).no_events = true) ∧
    (((check_flags cfgW6 1 emptyRecord).miss_adpsfc = false) ∧
      ((step_subset cfgW6 1 "ADPSFC" initAgg emptyRecord).miss_adpsfc = initAgg.miss_adpsfc) ∧
      (∀ t, (step_subset cfgW6 1 "ADPSFC" initAgg emptyRecord).per_type_miss_adpsfc t =
          initAgg.per_type_miss_adpsfc t) ∧
      ((step_subset cfgW6 1 "ADPSFC" initAgg emptyRecord).fail_records.filter
          (fun fr => fr.fail_type == FAIL_ADPSFC) =
        initAgg.fail_records.filter (fun fr => fr.fail_type == FAIL_ADPSFC))) :=
  ⟨rfl, Or.inl (by decide),
    c6_adpsfc_skip cfgW6 1 "ADPSFC" initAgg emptyRecord rfl (Or.inl (by decide))⟩

def cfgW7 : Config :=
  { twind_h := 3, check_oberrs := false, kind := none, pressure_unit := "hpa" }

/-- A record whose required header fields are all present and in range, but
whose `XOB` holds a single non-finite value. -/
def recNanXob : Record :=
  ⟨fun m =>
    if m = "XOB" then Arr.a1 [Val.nan]
    else if m = "YOB" then Arr.a1 [Val.fin 0]
    else if m = "DHR" then Arr.a1 [Val.fin 0]
    else if m = "TYP" then Arr.a1 [Val.fin 120]
    else if m = "ELV" then Arr.a1 [Val.fin 10]
    else if m = "SAID" then Arr.a1 [Val.fin 1]
    else if m = "T29" then Arr.a1 [Val.fin 1]
    else Arr.a1 []⟩

/-- `recNanXob` with the non-finite `XOB` value replaced by absence. -/
def recAbsXob : Record :=
  ⟨fun m => if m = "XOB" then Arr.a1 [] else recNanXob.read m⟩

/-- C7 counterexample: replacing the non-finite `XOB` value by absence changes
check outcomes — the header-completeness check passes with the non-finite
value present but fails when it is absent, and the unit-plausibility check
fails on the present non-finite value but passes when it is absent. -/
theorem c7_counterexample :
    ((check_flags cfgW7 1 recNanXob).bad_hdr = false) ∧
    ((check_flags cfgW7 1 recAbsXob).bad_hdr = true) ∧
    ((check_flags cfgW7 1 recNanXob).bad_units = true) ∧
    ((check_flags cfgW7 1 recAbsXob).bad_units = false) :=
  ⟨by decide, by decide, by decide, by decide⟩

/-- C7 amended: inside the value-comparison predicates the identification does
hold — the range predicate rejects an absent value and a non-finite value
alike, and the time-window comparison rejects a non-finite time offset just
as it rejects an absent one. Presence-based tests, however, distinguish the
two, as the counterexample shows. -/
theorem c7_amended_nonfinite_as_absent (lo hi t : ℚ) :
    in_range (some Val.nan) lo hi = in_range none lo hi ∧
    in_range none lo hi = false ∧
    dhr_in_window Val.nan t = false :=
  ⟨rfl, rfl, rfl⟩

/-- C8: an out-of-enumeration pressure-unit mode or platform kind is rejected
by argument parsing before any pass begins: the run aborts with an error, no
Summary is produced, and the outcome does not depend on the input file (no
record is ever consulted). -/
theorem c8_config_rejected (a : CliArgs) (file file2 : List Msg)
    (h : (¬a.pressure_unit.getD DEFAULT_PRESSURE_UNIT ∈ PRESSURE_UNITS) ∨
      (∃ k, a.kind = some k ∧ ¬k ∈ KIND_CHOICES)) :
    (∃ e, main_run a file = Except.error e) ∧ main_run a file = main_run a file2 := by
  have hp : ∃ e, parse_args a = Except.error e := by
    rcases h with h | ⟨k, hk, hkc⟩
    · exact ⟨_, by simp only [parse_args]; rw [if_neg h]⟩
    · by_cases hpu : a.pressure_unit.getD DEFAULT_PRESSURE_UNIT ∈ PRESSURE_UNITS
      · exact ⟨_, by simp only [parse_args]; rw [if_pos hpu, hk]; exact if_neg hkc⟩
      · exact ⟨_, by simp only [parse_args]; rw [if_neg hpu]⟩
  obtain ⟨e, he⟩ := hp
  constructor
  · exact ⟨e, by simp only [main_run]; rw [he]⟩
  · simp only [main_run]
    rw [he]

def badArgs : CliArgs :=
  { pressure_unit := some "bar", kind := none, twind := none, check_oberrs := false }

def msgW : Msg := ⟨"ADPUPA", [emptyRecord]⟩

theorem c8_config_rejected_witness :
    ((¬badArgs.pressure_unit.getD DEFAULT_PRESSURE_UNIT ∈ PRESSURE_UNITS) ∨
      (∃ k, badArgs.kind = some k ∧ ¬k ∈ KIND_CHOICES)) ∧
    ((∃ e, main_run badArgs [] = Except.error e) ∧
      main_run badArgs [] = main_run badArgs [msgW]) :=
  ⟨Or.inl (by decide), c8_config_rejected badArgs [] [msgW] (Or.inl (by decide))⟩

/-- The valid samples one subset can contribute, uncapped: the finite positive
first elements of `POB` then `PRSS`. -/
def sub_all (r : Record) : List ℚ :=
  ([sample_of r "POB", sample_of r "PRSS"]).filterMap id

/-- All valid candidate samples of the file in stream order, uncapped. -/
def file_samples (file : List Msg) : List ℚ :=
  file.flatMap (fun m => m.subs.flatMap sub_all)

theorem sub_samples_take (r : Record) (rem : Nat) (h : 1 ≤ rem) :
    sub_samples r rem = (sub_all r).take rem := by
  obtain ⟨n, rfl⟩ : ∃ n, rem = n + 1 := ⟨rem - 1, by omega⟩
  unfold sub_samples sub_all
  cases hp : sample_of r "POB" <;> cases hq : sample_of r "PRSS" <;>
    cases n <;> simp [List.filterMap, List.take]

theorem take_append_budget {α : Type} (l1 l2 : List α) (rem : Nat) :
    ((l1 ++ l2).take rem = l1.take rem ++ l2.take (rem - (l1.take rem).length)) ∧
    (rem - ((l1 ++ l2).take rem).length =
      (rem - (l1.take rem).length) - (l2.take (rem - (l1.take rem).length)).length) := by
  constructor
  · rw [List.take_append_eq_append_take]
    have : rem - l1.length = rem - (l1.take rem).length := by
      simp [List.length_take]
      omega
    rw [this]
  · simp [List.length_take, List.length_append]
    omega

theorem collect_subs_eq :
    ∀ (subs : List Record) (rem : Nat) (acc : List ℚ),
      collect_subs subs rem acc =
        (acc ++ (subs.flatMap sub_all).take rem,
          rem - ((subs.flatMap sub_all).take rem).length)
  | [], rem, acc => by simp [collect_subs]
  | r :: rest, rem, acc => by
    unfold collect_subs
    by_cases h0 : rem = 0
    · subst h0
      simp
    · rw [if_neg h0]
      rw [sub_samples_take r rem (by omega)]
      rw [collect_subs_eq rest _ _]
      obtain ⟨hA, hB⟩ := take_append_budget (sub_all r) (rest.flatMap sub_all) rem
      rw [List.flatMap_cons, hA]
      simp [List.append_assoc, List.length_append, Nat.sub_sub]

theorem collect_file_eq :
    ∀ (msgs : List Msg) (rem : Nat) (acc : List ℚ),
      collect_file msgs rem acc = acc ++ (file_samples msgs).take rem
  | [], rem, acc => by simp [collect_file, file_samples]
  | m :: rest, rem, acc => by
    unfold collect_file
    by_cases h0 : rem = 0
    · subst h0
      simp [file_samples]
    · rw [if_neg h0]
      rw [collect_subs_eq m.subs rem acc]
      rw [collect_file_eq rest _ _]
      obtain ⟨hA, hB⟩ := take_append_budget (m.subs.flatMap sub_all)
        (rest.flatMap (fun mm => mm.subs.flatMap sub_all)) rem
      simp only [file_samples, List.flatMap_cons]
      rw [hA]
      simp [List.append_assoc, file_samples]

/-- C3 amended: under auto mode the resolver takes the first (up to 500)
finite positive `POB`/`PRSS` samples in stream order, computes their median,
and compares it against the three plausibility windows in hpa, cb, pa order,
selecting the first window containing the median; the hpa and cb windows
overlap (they are not disjoint), and an ambiguous median is resolved by that
first-match order; with no samples, or a median in no window, it falls back
to hpa. -/
theorem c3_amended_autodetect (file : List Msg) :
    autodetect_pressure_unit file PRESSURE_AUTODETECT_SAMPLES =
      (if (file_samples file).take PRESSURE_AUTODETECT_SAMPLES = [] then "hpa"
        else
          if 50 ≤ median ((file_samples file).take PRESSURE_AUTODETECT_SAMPLES) ∧
              median ((file_samples file).take PRESSURE_AUTODETECT_SAMPLES) ≤ 1100 then "hpa"
          else if 5 ≤ median ((file_samples file).take PRESSURE_AUTODETECT_SAMPLES) ∧
              median ((file_samples file).take PRESSURE_AUTODETECT_SAMPLES) ≤ 110 then "cb"
          else if 5000 ≤ median ((file_samples file).take PRESSURE_AUTODETECT_SAMPLES) ∧
              median ((file_samples file).take PRESSURE_AUTODETECT_SAMPLES) ≤ 110000 then "pa"
          else "hpa") := by
  unfold autodetect_pressure_unit
  rw [collect_file_eq file PRESSURE_AUTODETECT_SAMPLES []]
  rw [List.nil_append]
  rfl

def recMed100 : Record :=
  ⟨fun m => if m = "POB" then Arr.a2 [[Val.fin 100]] else Arr.a1 []⟩

def fileMed100 : List Msg := [⟨"ADPUPA", [recMed100]⟩]

/-- C3 counterexample: the three windows are not disjoint — the median 100
lies inside both the hpa window and the cb window — and a run whose sample
median is 100 resolves to hpa by first-match order. -/
theorem c3_counterexample :
    (PRESSURE_AUTODETECT_THRESH.1.1 ≤ (100 : ℚ) ∧
      (100 : ℚ) ≤ PRESSURE_AUTODETECT_THRESH.1.2) ∧
    (PRESSURE_AUTODETECT_THRESH.2.1.1 ≤ (100 : ℚ) ∧
      (100 : ℚ) ≤ PRESSURE_AUTODETECT_THRESH.2.1.2) ∧
    (median (collect_file fileMed100 PRESSURE_AUTODETECT_SAMPLES []) = 100) ∧
    (autodetect_pressure_unit fileMed100 PRESSURE_AUTODETECT_SAMPLES = "hpa") :=
  ⟨by decide, by decide, by decide, by decide⟩

/-- Invariant tying a global counter to its per-category map: the map sums to
the global value over the registered keys and vanishes off them. -/
def PairInv (keys : List String) (g : Nat) (d : String → Nat) : Prop :=
  (keys.map d).sum = g ∧ ∀ t, ¬t ∈ keys → d t = 0

theorem inc_ne (d : String → Nat) (k t : String) (h : ¬t = k) : inc d k t = d t := by
  simp [inc, h]

theorem map_sum_inc (d : String → Nat) (k : String) :
    ∀ (keys : List String), keys.Nodup → k ∈ keys →
      (keys.map (inc d k)).sum = (keys.map d).sum + 1
  | [], _, hk => absurd hk (by simp)
  | a :: as, hnd, hk => by
    rw [List.nodup_cons] at hnd
    rcases List.mem_cons.mp hk with rfl | hk2
    · have hmap : as.map (inc d k) = as.map d :=
        List.map_congr_left (fun x hx => inc_ne d k x (fun he => hnd.1 (he ▸ hx)))
      have hself : inc d k k = d k + 1 := by simp [inc]
      rw [List.map_cons, List.map_cons, List.sum_cons, List.sum_cons, hmap, hself]
      omega
    · have hak : ¬a = k := fun he => hnd.1 (he ▸ hk2)
      rw [List.map_cons, List.map_cons, List.sum_cons, List.sum_cons, inc_ne d k a hak,
        map_sum_inc d k as hnd.2 hk2]
      omega

theorem pairInv_inc (keys : List String) (g : Nat) (d : String → Nat) (k : String)
    (hnd : keys.Nodup) (hk : k ∈ keys) (h : PairInv keys g d) :
    PairInv keys (g + 1) (inc d k) := by
  refine ⟨?_, ?_⟩
  · rw [map_sum_inc d k keys hnd hk, h.1]
  · intro t ht
    have htk : ¬t = k := fun he => ht (he ▸ hk)
    rw [inc_ne d k t htk]
    exact h.2 t ht

theorem pairInv_step (keys : List String) (g : Nat) (d : String → Nat) (k : String) (b : Bool)
    (hnd : keys.Nodup) (hk : k ∈ keys) (h : PairInv keys g d) :
    PairInv keys (g + (if b then 1 else 0)) (if b then inc d k else d) := by
  cases b
  · simpa using h
  · simpa using pairInv_inc keys g d k hnd hk h

theorem pairInv_extend (keys : List String) (g : Nat) (d : String → Nat) (k : String)
    (hk : ¬k ∈ keys) (h : PairInv keys g d) :
    PairInv (keys ++ [k]) g d := by
  refine ⟨?_, ?_⟩
  · rw [List.map_append, List.sum_append]
    simp [h.2 k hk, h.1]
  · intro t ht
    exact h.2 t (fun hmem => ht (List.mem_append_left _ hmem))

/-- The aggregation invariant: registered keys are distinct and every
global/per-category counter pair satisfies `PairInv`. -/
def AggInv (a : Agg) : Prop :=
  a.typeKeys.Nodup ∧
  PairInv a.typeKeys a.nsub a.per_type_total ∧
  PairInv a.typeKeys a.bad_hdr a.per_type_bad_hdr ∧
  PairInv a.typeKeys a.no_events a.per_type_no_events ∧
  PairInv a.typeKeys a.time_oow a.per_type_time_oow ∧
  PairInv a.typeKeys a.bad_units a.per_type_bad_units ∧
  PairInv a.typeKeys a.miss_oberrs a.per_type_miss_oberrs ∧
  PairInv a.typeKeys a.miss_adpsfc a.per_type_miss_adpsfc

theorem step_subset_inv (cfg : Config) (pscale : ℚ) (mtyp : String) (agg : Agg) (r : Record)
    (hk : mtyp ∈ agg.typeKeys) (h : AggInv agg) :
    AggInv (step_subset cfg pscale mtyp agg r) := by
  obtain ⟨hnd, h1, h2, h3, h4, h5, h6, h7⟩ := h
  refine ⟨hnd, ?_, ?_, ?_, ?_, ?_, ?_, ?_⟩
  · show PairInv agg.typeKeys (agg.nsub + 1) (inc agg.per_type_total mtyp)
    exact pairInv_inc _ _ _ _ hnd hk h1
  · show PairInv agg.typeKeys
      (agg.bad_hdr + (if (check_flags cfg pscale r).bad_hdr then 1 else 0))
      (if (check_flags cfg pscale r).bad_hdr then inc agg.per_type_bad_hdr mtyp
        else agg.per_type_bad_hdr)
    exact pairInv_step _ _ _ _ _ hnd hk h2
  · show PairInv agg.typeKeys
      (agg.no_events + (if (check_flags cfg pscale r).no_events then 1 else 0))
      (if (check_flags cfg pscale r).no_events then inc agg.per_type_no_events mtyp
        else agg.per_type_no_events)
    exact pairInv_step _ _ _ _ _ hnd hk h3
  · show PairInv agg.typeKeys
      (agg.time_oow + (if (check_flags cfg pscale r).time_oow then 1 else 0))
      (if (check_flags cfg pscale r).time_oow then inc agg.per_type_time_oow mtyp
        else agg.per_type_time_oow)
    exact pairInv_step _ _ _ _ _ hnd hk h4
  · show PairInv agg.typeKeys
      (agg.bad_units + (if (check_flags cfg pscale r).bad_units then 1 else 0))
      (if (check_flags cfg pscale r).bad_units then inc agg.per_type_bad_units mtyp
        else agg.per_type_bad_units)
    exact pairInv_step _ _ _ _ _ hnd hk h5
  · show PairInv agg.typeKeys
      (agg.miss_oberrs + (if (check_flags cfg pscale r).miss_oberrs then 1 else 0))
      (if (check_flags cfg pscale r).miss_oberrs then inc agg.per_type_miss_oberrs mtyp
        else agg.per_type_miss_oberrs)
    exact pairInv_step _ _ _ _ _ hnd hk h6
  · show PairInv agg.typeKeys
      (agg.miss_adpsfc + (if (check_flags cfg pscale r).miss_adpsfc then 1 else 0))
      (if (check_flags cfg pscale r).miss_adpsfc then inc agg.per_type_miss_adpsfc mtyp
        else agg.per_type_miss_adpsfc)
    exact pairInv_step _ _ _ _ _ hnd hk h7

theorem foldl_step_subset_inv (cfg : Config) (pscale : ℚ) (mtyp : String) :
    ∀ (subs : List Record) (agg : Agg), mtyp ∈ agg.typeKeys → AggInv agg →
      AggInv (subs.foldl (step_subset cfg pscale mtyp) agg)
  | [], _, _, h => h
  | r :: rest, agg, hk, h => by
    rw [List.foldl_cons]
    exact foldl_step_subset_inv cfg pscale mtyp rest _ hk
      (step_subset_inv cfg pscale mtyp agg r hk h)

theorem step_msg_inv (cfg : Config) (pscale : ℚ) (agg : Agg) (m : Msg)
    (h : AggInv agg) : AggInv (step_msg cfg pscale agg m) := by
  obtain ⟨hnd, h1, h2, h3, h4, h5, h6, h7⟩ := h
  simp only [step_msg]
  by_cases hmem : m.mtyp ∈ agg.typeKeys
  · rw [if_pos hmem]
    exact foldl_step_subset_inv cfg pscale m.mtyp m.subs _ hmem
      ⟨hnd, h1, h2, h3, h4, h5, h6, h7⟩
  · have hnd1 : (agg.typeKeys ++ [m.mtyp]).Nodup := by
      rw [List.nodup_append]
      refine ⟨hnd, List.nodup_singleton _, ?_⟩
      intro x hx hx2
      rw [List.mem_singleton] at hx2
      exact hmem (hx2 ▸ hx)
    rw [if_neg hmem]
    exact foldl_step_subset_inv cfg pscale m.mtyp m.subs _
      (List.mem_append_right _ (by simp))
      ⟨hnd1, pairInv_extend _ _ _ _ hmem h1, pairInv_extend _ _ _ _ hmem h2,
        pairInv_extend _ _ _ _ hmem h3, pairInv_extend _ _ _ _ hmem h4,
        pairInv_extend _ _ _ _ hmem h5, pairInv_extend _ _ _ _ hmem h6,
        pairInv_extend _ _ _ _ hmem h7⟩

theorem foldl_step_msg_inv (cfg : Config) (pscale : ℚ) :
    ∀ (msgs : List Msg) (agg : Agg), AggInv agg →
      AggInv (msgs.foldl (step_msg cfg pscale) agg)
  | [], _, h => h
  | m :: rest, agg, h => by
    rw [List.foldl_cons]
    exact foldl_step_msg_inv cfg pscale rest _ (step_msg_inv cfg pscale agg m h)

theorem initAgg_inv : AggInv initAgg := by
  refine ⟨List.nodup_nil, ?_, ?_, ?_, ?_, ?_, ?_, ?_⟩ <;> exact ⟨rfl, fun _ _ => rfl⟩

/-- C9: at the end of every run, each of the six global failure-kind counters
equals the sum of its per-category counters over all registered categories,
and the per-category total-seen counters sum to the global record count. -/
theorem c9_counter_sums (cfg : Config) (file : List Msg) :
    (((check_file cfg file).agg.typeKeys.map (check_file cfg file).agg.per_type_bad_hdr).sum =
        (check_file cfg file).agg.bad_hdr) ∧
    (((check_file cfg file).agg.typeKeys.map (check_file cfg file).agg.per_type_no_events).sum =
        (check_file cfg file).agg.no_events) ∧
    (((check_file cfg file).agg.typeKeys.map (check_file cfg file).agg.per_type_time_oow).sum =
        (check_file cfg file).agg.time_oow) ∧
    (((check_file cfg file).agg.typeKeys.map (check_file cfg file).agg.per_type_bad_units).sum =
        (check_file cfg file).agg.bad_units) ∧
    (((check_file cfg file).agg.typeKeys.map (check_file cfg file).agg.per_type_miss_oberrs).sum =
        (check_file cfg file).agg.miss_oberrs) ∧
    (((check_file cfg file).agg.typeKeys.map (check_file cfg file).agg.per_type_miss_adpsfc).sum =
        (check_file cfg file).agg.miss_adpsfc) ∧
    (((check_file cfg file).agg.typeKeys.map (check_file cfg file).agg.per_type_total).sum =
        (check_file cfg file).agg.nsub) ∧
    (∀ t, ¬t ∈ (check_file cfg file).agg.typeKeys →
      (check_file cfg file).agg.per_type_bad_hdr t = 0 ∧
      (check_file cfg file).agg.per_type_no_events t = 0 ∧
      (check_file cfg file).agg.per_type_time_oow t = 0 ∧
      (check_file cfg file).agg.per_type_bad_units t = 0 ∧
      (check_file cfg file).agg.per_type_miss_oberrs t = 0 ∧
      (check_file cfg file).agg.per_type_miss_adpsfc t = 0 ∧
      (check_file cfg file).agg.per_type_total t = 0) := by
  have h := foldl_step_msg_inv cfg
    (pressure_scale (resolve_unit cfg.pressure_unit file)) file initAgg initAgg_inv
  obtain ⟨hnd, h1, h2, h3, h4, h5, h6, h7⟩ := h
  exact ⟨h2.1, h3.1, h4.1, h5.1, h6.1, h7.1, h1.1,
    fun t ht => ⟨h2.2 t ht, h3.2 t ht, h4.2 t ht, h5.2 t ht, h6.2 t ht, h7.2 t ht, h1.2 t ht⟩⟩

/-- Replace one field of a record. -/
def setField (r : Record) (nm : String) (a : Arr) : Record :=
  ⟨fun m => if m = nm then a else r.read m⟩

/-- The fields whose values are consumed only through their first stored
element: the eight unit-checked base variables plus the two range-checked
platform auxiliaries. -/
def SCALAR_CHECKED : List String := UNIT_VARS ++ ["PRSS", "PWO"]

theorem size_pos_iff_of_pres (r1 r2 : Record) (m : String)
    (h : (read1 r1 m).isSome = (read1 r2 m).isSome) :
    (0 < (r1.read m).size) ↔ (0 < (r2.read m).size) := by
  unfold read1 at h
  by_cases h1 : 0 < (r1.read m).size <;> by_cases h2 : 0 < (r2.read m).size <;>
    simp [h1, h2] at h ⊢

theorem has_header_fast_congr (r1 r2 : Record)
    (hpres : ∀ m, (read1 r1 m).isSome = (read1 r2 m).isSome) :
    ∀ (l : List String), has_header_fast r1 l = has_header_fast r2 l
  | [] => rfl
  | m :: l => by
    unfold has_header_fast
    rw [List.all_cons, List.all_cons]
    have hd : (decide (0 < (r1.read m).size)) = (decide (0 < (r2.read m).size)) :=
      decide_eq_decide.mpr (size_pos_iff_of_pres r1 r2 m (hpres m))
    have ht := has_header_fast_congr r1 r2 hpres l
    unfold has_header_fast at ht
    rw [hd, ht]

theorem read1_congr_of_read_eq (r1 r2 : Record) (m : String) (h : r1.read m = r2.read m) :
    read1 r1 m = read1 r2 m := by
  unfold read1
  rw [h]

theorem seq_ok_congr (r1 r2 : Record)
    (hseq : ∀ m, m ∈ REQ_SEQS → r1.read m = r2.read m) :
    seq_ok r1 = seq_ok r2 := by
  unfold seq_ok tevn_ok wevn_ok tier2_ok
  simp only [List.any_cons, List.any_nil]
  rw [read1_congr_of_read_eq r1 r2 "TEVN" (hseq "TEVN" (by decide)),
    read1_congr_of_read_eq r1 r2 "WEVN" (hseq "WEVN" (by decide)),
    read1_congr_of_read_eq r1 r2 "PEVN" (hseq "PEVN" (by decide)),
    read1_congr_of_read_eq r1 r2 "ZEVN" (hseq "ZEVN" (by decide)),
    read1_congr_of_read_eq r1 r2 "QEVN" (hseq "QEVN" (by decide))]

theorem check_range_congr (r1 r2 : Record) (pscale : ℚ)
    (hscal : ∀ m, read_scalar r1 m = read_scalar r2 m) (nm : String) :
    check_range r1 pscale nm = check_range r2 pscale nm := by
  unfold check_range
  rw [hscal nm]

theorem unit_loop_congr (r1 r2 : Record) (pscale : ℚ)
    (hpres : ∀ m, (read1 r1 m).isSome = (read1 r2 m).isSome)
    (hscal : ∀ m, read_scalar r1 m = read_scalar r2 m) :
    unit_loop r1 pscale = unit_loop r2 pscale := by
  unfold unit_loop
  rw [unit_foldl_eq, unit_foldl_eq]
  have hp : (fun nm => (read1 r1 nm).isSome && !check_range r1 pscale nm) =
      (fun nm => (read1 r2 nm).isSome && !check_range r2 pscale nm) := by
    funext nm
    rw [hpres nm, check_range_congr r1 r2 pscale hscal nm]
  rw [hp]

theorem miss_oberrs_congr (r1 r2 : Record)
    (hpres : ∀ m, (read1 r1 m).isSome = (read1 r2 m).isSome) :
    miss_oberrs_check r1 = miss_oberrs_check r2 := by
  unfold miss_oberrs_check
  simp only [OBERR_PAIRS, List.any_cons, List.any_nil]
  rw [hpres "TOB", hpres "TOE", hpres "UOB", hpres "VOB", hpres "WOE", hpres "POB",
    hpres "POE", hpres "ZOB", hpres "ZOE", hpres "QOB", hpres "QOE"]

theorem miss_adpsfc_congr (r1 r2 : Record) (pscale : ℚ) (b1 b2 : Bool)
    (hpres : ∀ m, (read1 r1 m).isSome = (read1 r2 m).isSome)
    (hscal : ∀ m, read_scalar r1 m = read_scalar r2 m) :
    miss_adpsfc_check r1 pscale b1 b2 = miss_adpsfc_check r2 pscale b1 b2 := by
  unfold miss_adpsfc_check
  rw [hpres "PRSS", hpres "PWO", hpres "CAT", hscal "PRSS", hscal "PWO"]

/-- Every per-record check outcome depends on a field only through its
presence, its first stored (row-major) value, and — for the five event
sequences — the full matrix. -/
theorem check_flags_congr (cfg : Config) (pscale : ℚ) (r1 r2 : Record)
    (hpres : ∀ m, (read1 r1 m).isSome = (read1 r2 m).isSome)
    (hscal : ∀ m, read_scalar r1 m = read_scalar r2 m)
    (hseq : ∀ m, m ∈ REQ_SEQS → r1.read m = r2.read m) :
    check_flags cfg pscale r1 = check_flags cfg pscale r2 := by
  unfold check_flags
  rw [has_header_fast_congr r1 r2 hpres REQ_HDR, hscal "DHR", seq_ok_congr r1 r2 hseq,
    unit_loop_congr r1 r2 pscale hpres hscal]
  by_cases hob : cfg.check_oberrs <;> by_cases hk : cfg.kind = some "adpsfc" <;>
    simp only [hob, hk, if_pos, if_neg, if_true, if_false,
      miss_oberrs_congr r1 r2 hpres, miss_adpsfc_congr r1 r2 pscale _ _ hpres hscal]

/-- C10: only the first stored value of a scalar-checked field matters — for
any of the eight base unit variables or the two platform auxiliaries,
replacing the field's array by another nonempty array with the same first
(row-major) element leaves every check outcome of the record unchanged. -/
theorem c10_first_value_only (cfg : Config) (pscale : ℚ) (r : Record) (nm : String)
    (hnm : nm ∈ SCALAR_CHECKED) (x y : Arr)
    (hx : 0 < x.size) (hy : 0 < y.size) (hhead : x.flat.head? = y.flat.head?) :
    check_flags cfg pscale (setField r nm x) = check_flags cfg pscale (setField r nm y) := by
  apply check_flags_congr
  · intro m
    by_cases hm : m = nm
    · subst hm
      unfold read1 setField
      simp [hx, hy]
    · unfold read1 setField
      simp [hm]
  · intro m
    by_cases hm : m = nm
    · subst hm
      unfold read_scalar read1 setField
      simp [hx, hy, hhead]
    · unfold read_scalar read1 setField
      simp [hm]
  · intro m hmseq
    have hdisj : ∀ s ∈ SCALAR_CHECKED, ¬s ∈ REQ_SEQS := by decide
    have hm : ¬m = nm := fun he => hdisj nm hnm (he ▸ hmseq)
    show (setField r nm x).read m = (setField r nm y).read m
    unfold setField
    simp [hm]

def cfgW10 : Config :=
  { twind_h := 3, check_oberrs := false, kind := none, pressure_unit := "hpa" }

theorem c10_first_value_only_witness :
    ("TOB" ∈ SCALAR_CHECKED) ∧
    (0 < (Arr.a1 [Val.fin 300, Val.fin 1000]).size) ∧
    (0 < (Arr.a1 [Val.fin 300]).size) ∧
    ((Arr.a1 [Val.fin 300, Val.fin 1000]).flat.head? = (Arr.a1 [Val.fin 300]).flat.head?) ∧
    check_flags cfgW10 1 (setField emptyRecord "TOB" (Arr.a1 [Val.fin 300, Val.fin 1000])) =
      check_flags cfgW10 1 (setField emptyRecord "TOB" (Arr.a1 [Val.fin 300])) :=
  ⟨by decide, by decide, by decide, by decide,
    c10_first_value_only cfgW10 1 emptyRecord "TOB" (by decide) _ _ (by decide) (by decide)
      (by decide)⟩

end PrepBufr
